import Mathlib

/-!
Verification of `tools/e133/SlpThread.cpp` (OLA): a cross-thread SLP bridge.
The C++ source is shallowly embedded below: each worker-side routine
(`NewRequest`, `DiscoveryRequest`, `RegisterRequest`, `DeregisterRequest`,
`PerformRegistration`, `RegistrationTriggered`, `Init`, the public `Register`
clamp, and the SLP callback plumbing) becomes a pure Lean function over an
explicit state, with external-service outcomes passed in as parameters.
Machine integers are modelled as `Nat`/`Int` with explicit `% 65536` where
unsigned-short conversion occurs in the source.
-/

namespace SlpThread

/-! ## Guarded task queue (AddToIncomingQueue / AddToOutgoingQueue,
     NewRequest / RequestComplete drain loops)

`AddTo*Queue` pushes a callback at the back of a mutex-guarded `std::queue`;
the drain loops (`NewRequest` / `RequestComplete`) repeatedly lock, exit when
the queue is observed empty, otherwise pop the front and run it outside the
lock.  We model actions by the id order in which they were enqueued, and a
whole execution as a trace of atomic events: an enqueue (the push under the
lock) or one iteration of a drain loop (the pop under the lock plus the run).
The mutex makes each such event atomic, so every concurrent execution is some
interleaving, i.e. some trace. -/

/-- One atomic event on a guarded queue: an enqueue of a fresh action, or one
iteration of the drain loop (pop front and run it; a no-op if the queue is
observed empty, which is where the loop terminates). -/
inductive QEvent where
  | enq : QEvent
  | runStep : QEvent
  deriving DecidableEq, Repr

/-- Queue state: pending actions (front first), the ids already executed in
execution order, and the id the next enqueue will use. -/
structure QState where
  pending : List Nat
  executed : List Nat
  nextId : Nat
  deriving DecidableEq, Repr

def qInit : QState := ⟨[], [], 0⟩

/-- One atomic step of the guarded queue. `enq` is `m_incoming_queue.push`
under the mutex; `runStep` is one iteration of the `while (true)` loop in
`SlpThread::NewRequest` / `RequestComplete`: if the queue is empty the loop
returns, else the front is popped and the callback run. -/
def qstep (s : QState) : QEvent → QState
  | .enq => { s with pending := s.pending ++ [s.nextId], nextId := s.nextId + 1 }
  | .runStep =>
    match s.pending with
    | [] => s
    | h :: t => { s with pending := t, executed := s.executed ++ [h] }

/-- Run a trace of events from the initial state. -/
def runTrace (es : List QEvent) : QState := es.foldl qstep qInit

/-- `NewRequest`'s drain loop with no concurrent producers: pops and runs the
front until the queue is observed empty.  Structural recursion on the pending
list is exactly the loop's termination argument. -/
def drainLoop : List Nat → List Nat → List Nat × List Nat
  | [], done => ([], done)
  | h :: t, done => drainLoop t (done ++ [h])

/-! ## SLP error codes and the dual error channels

`SLPError` values from OpenSLP's `slp.h`: `SLP_OK = 0`, `SLP_LAST_CALL = 1`,
failures are negative.  We model them as `Int`. -/

def SLP_OK : Int := 0
def SLP_LAST_CALL : Int := 1

/-- Unsigned-short modulus: `lifetime` and `next_discovery_duration` are
`unsigned short` in the source, so assignments into them reduce mod 2^16. -/
def U16 : Nat := 65536

/-- The cookie passed as `void*` to `ServiceCallback`: the last error signal
plus accumulated `(srvurl, lifetime)` pairs. -/
structure SlpCookie where
  error : Int
  urls : List (String × Nat)
  deriving DecidableEq, Repr

/-- `ServiceCallback`: one invocation by the SLP library during `SLPFindSrvs`.
On `SLP_OK` it appends `(srvurl, lifetime)` and records OK; on `SLP_LAST_CALL`
it records OK; otherwise it records the error code. -/
def serviceCallback (cookie : SlpCookie) (srvurl : String) (lifetime : Nat)
    (errcode : Int) : SlpCookie :=
  if errcode = SLP_OK then
    { urls := cookie.urls ++ [(srvurl, lifetime)], error := SLP_OK }
  else if errcode = SLP_LAST_CALL then
    { cookie with error := SLP_OK }
  else
    { cookie with error := errcode }

/-- The sequence of `ServiceCallback` invocations the SLP library performs
during one `SLPFindSrvs` call, folded over the cookie. -/
def runServiceCallbacks (cookie : SlpCookie)
    (events : List (String × Nat × Int)) : SlpCookie :=
  events.foldl (fun c e => serviceCallback c e.1 e.2.1 e.2.2) cookie

/-- The success-merging pattern used by `DiscoveryRequest`,
`PerformRegistration` and `DeregisterRequest`: start from `ok = true`, clear
it if the immediate return code is not `SLP_OK`, clear it again if the
callback-delivered error is not `SLP_OK`. -/
def mergeOk (err cbErr : Int) : Bool :=
  let ok := true
  let ok := if err ≠ SLP_OK then false else ok
  let ok := if cbErr ≠ SLP_OK then false else ok
  ok

/-! ## Select-server timers

`m_ss.RegisterSingleTimeout(delayMs, cb)` returns a fresh `timeout_id`;
`RemoveTimeout` cancels by id.  We record armed timers as `(handle, delayMs)`
pairs and hand out handles from a counter; delays are `Int` so that the
source's integer arithmetic (which could go negative before the unsigned
conversion) is kept visible. -/

structure SelectServer where
  timers : List (Nat × Int)
  nextHandle : Nat
  deriving DecidableEq, Repr

def SelectServer.registerSingleTimeout (ss : SelectServer) (delayMs : Int) :
    Nat × SelectServer :=
  (ss.nextHandle,
   { timers := ss.timers ++ [(ss.nextHandle, delayMs)],
     nextHandle := ss.nextHandle + 1 })

def SelectServer.removeTimeout (ss : SelectServer) (h : Nat) : SelectServer :=
  { ss with timers := ss.timers.filter (fun t => !(t.1 == h)) }

/-! ## DiscoveryRequest -/

/-- The `next_discovery_duration` computation in `DiscoveryRequest`:
`unsigned short next_discovery_duration = m_refresh_time` narrows the
configured `unsigned int` interval mod 2^16; when the run succeeded, each
returned lifetime is folded into it with `std::min`. -/
def nextDiscoveryDuration (refreshTime : Nat) (ok : Bool)
    (urls : List (String × Nat)) : Nat :=
  let next := refreshTime % U16
  if ok then urls.foldl (fun acc p => min p.2 acc) next else next

/-- `SlpThread::DiscoveryRequest`, given the immediate return code of
`SLPFindSrvs` and the cookie as left by the callbacks.  Cancels a pending
discovery timeout, merges the two error channels, computes the next discovery
duration (seeded with `m_refresh_time` narrowed to `unsigned short`, i.e. mod
2^16), re-arms the one-shot discovery timer at `duration * 1000` ms, and
returns the new select-server state, the new timeout handle, and the
`(ok, urls)` completion pushed onto the outgoing queue. -/
def discoveryRequest (refreshTime : Nat) (err : Int) (cookie : SlpCookie)
    (discoveryTimeout : Option Nat) (ss : SelectServer) :
    SelectServer × Nat × Bool × List String :=
  let ss0 := match discoveryTimeout with
    | some t => ss.removeTimeout t
    | none => ss
  let ok := mergeOk err cookie.error
  let next := nextDiscoveryDuration refreshTime ok cookie.urls
  let urls := cookie.urls.map Prod.fst
  let (h, ss1) := ss0.registerSingleTimeout ((next : Int) * 1000)
  (ss1, h, ok, urls)

/-- The spec's phrase "the minimum advertised lease over all returned
entries", written from the spec for comparison with the source computation:
the least lifetime among the returned pairs (0 for an empty list). -/
def specMinLease (urls : List (String × Nat)) : Nat :=
  match urls with
  | [] => 0
  | p :: t => t.foldl (fun acc q => min acc q.2) p.2

/-! ## Registration engine

`m_url_map : std::map<string, url_registration_state>` with
`url_registration_state = { lifetime; timeout }`.  `INVALID_TIMEOUT` is
modelled as `none`.  The map is an association list with unique keys, touched
only by the worker thread, so an assoc list with lookup / in-place set /
erase is a faithful model. -/

def MIN_LIFETIME : Nat := 5

structure UrlState where
  lifetime : Nat
  timeout : Option Nat
  deriving DecidableEq, Repr

abbrev UrlMap := List (String × UrlState)

/-- In-place update of the value stored under `url` (appends when absent),
matching `std::map` semantics where keys are unique. -/
def mapSet (url : String) (v : UrlState) : UrlMap → UrlMap
  | [] => [(url, v)]
  | (k, w) :: t => if k == url then (k, v) :: t else (k, w) :: mapSet url v t

/-- `m_url_map.erase(iter)` for the entry found under `url`. -/
def mapErase (url : String) (m : UrlMap) : UrlMap :=
  m.filter (fun p => !(p.1 == url))

/-- Externally observable effects of one engine action: the number of `SLPReg`
calls issued, the number of `SLPDereg` calls issued, and the `ok` flags pushed
onto the outgoing completion queue. -/
structure Effects where
  regCalls : Nat
  deregCalls : Nat
  outgoing : List Bool
  deriving DecidableEq, Repr

/-- The lease clamp at the top of `SlpThread::RegisterRequest`:
`lifetime = max(lifetime, MIN_LIFETIME)` followed by raising to the
DA-advertised minimum refresh interval when that is non-zero. -/
def registerClamp (lifetime minLifetime : Nat) : Nat :=
  let l := max lifetime MIN_LIFETIME
  if minLifetime ≠ 0 ∧ l < minLifetime then minLifetime else l

/-- The renewal delay computed in `PerformRegistration`:
`lifetime = lifetime - SLPD_AGING_TIME_S` (unsigned-short arithmetic, hence
the `% U16`), then `(lifetime - 1) * 1000` in signed int arithmetic. -/
def perfRegDelayMs (lifetime aging : Nat) : Int :=
  ((((lifetime : Int) - (aging : Int)) % (U16 : Int)) - 1) * 1000

/-- `SlpThread::PerformRegistration`: issues `SLPReg`, merges the immediate
return code with the callback-delivered error, and regardless of the outcome
registers a single renewal timeout at `perfRegDelayMs` whose handle is
written through the `timeout` out-parameter.  Returns
`(ok, new timeout handle, new select server)`. -/
def performRegistration (aging : Nat) (err cbErr : Int) (lifetime : Nat)
    (ss : SelectServer) : Bool × Nat × SelectServer :=
  let ok := mergeOk err cbErr
  let (h, ss1) := ss.registerSingleTimeout (perfRegDelayMs lifetime aging)
  (ok, h, ss1)

/-- `SlpThread::RegisterRequest`: clamp the lease, then
  * if an entry exists with the same (clamped) lease, push `ok = true` to the
    outgoing queue and return without touching the external service;
  * if an entry exists with a different lease, update the stored lease in
    place and cancel its pending renewal timeout;
  * otherwise insert a fresh entry with an invalid timeout;
then call `PerformRegistration` (which stores the new timeout handle in the
entry) and push its `ok` to the outgoing queue. -/
def registerRequest (aging minLifetime : Nat) (err cbErr : Int) (url : String)
    (lifetime0 : Nat) (m : UrlMap) (ss : SelectServer) :
    (UrlMap × SelectServer) × Effects :=
  let lifetime := registerClamp lifetime0 minLifetime
  match m.lookup url with
  | some us =>
    if us.lifetime = lifetime then
      ((m, ss), ⟨0, 0, [true]⟩)
    else
      let ss0 := match us.timeout with
        | some t => ss.removeTimeout t
        | none => ss
      let (ok, h, ss1) := performRegistration aging err cbErr lifetime ss0
      ((mapSet url ⟨lifetime, some h⟩ m, ss1), ⟨1, 0, [ok]⟩)
  | none =>
    let (ok, h, ss1) := performRegistration aging err cbErr lifetime ss
    ((mapSet url ⟨lifetime, some h⟩ m, ss1), ⟨1, 0, [ok]⟩)

/-- `SlpThread::DeregisterRequest`: when an entry exists, cancel its pending
renewal timeout and erase it from the map; then (in either case) issue
`SLPDereg`, merge the two error channels, and push `ok` to the outgoing
queue. -/
def deregisterRequest (err cbErr : Int) (url : String) (m : UrlMap)
    (ss : SelectServer) : (UrlMap × SelectServer) × Effects :=
  let st := match m.lookup url with
    | some us =>
      let ss0 := match us.timeout with
        | some t => ss.removeTimeout t
        | none => ss
      (mapErase url m, ss0)
    | none => (m, ss)
  let ok := mergeOk err cbErr
  (st, ⟨0, 1, [ok]⟩)

/-- `SlpThread::RegistrationTriggered`: fired by the renewal timer.  Looks the
url up; when absent it does nothing, otherwise it re-runs
`PerformRegistration` with the stored lease, storing the fresh timeout handle
back into the entry.  No completion is pushed. -/
def registrationTriggered (aging : Nat) (err cbErr : Int) (url : String)
    (m : UrlMap) (ss : SelectServer) : (UrlMap × SelectServer) × Effects :=
  match m.lookup url with
  | none => ((m, ss), ⟨0, 0, []⟩)
  | some us =>
    let (_, h, ss1) := performRegistration aging err cbErr us.lifetime ss
    ((mapSet url ⟨us.lifetime, some h⟩ m, ss1), ⟨1, 0, []⟩)

/-- The clamp in the public `SlpThread::Register`, run on the caller's thread
before the request is enqueued: a lifetime at most `2 * SLPD_AGING_TIME_S` is
forced to `2 * SLPD_AGING_TIME_S` (assigned into an `unsigned short`, hence
`% U16`). -/
def registerPublicLifetime (aging lifetime : Nat) : Nat :=
  if lifetime ≤ aging * 2 then (2 * aging) % U16 else lifetime

/-! ## Init -/

/-- The outcomes of the three fallible steps of `SlpThread::Init`. -/
structure InitEnv where
  incomingInitOk : Bool
  outgoingInitOk : Bool
  slpOpenErr : Int
  deriving DecidableEq, Repr

/-- Bridge resource state relevant to `Init`/teardown. -/
structure BridgeState where
  incomingOpen : Bool
  outgoingOpen : Bool
  slpOpen : Bool
  initOk : Bool
  deriving DecidableEq, Repr

/-- A freshly constructed bridge: nothing acquired, `m_init_ok = false`. -/
def freshBridge : BridgeState := ⟨false, false, false, false⟩

/-- `SlpThread::Init`: returns `true` at once when `m_init_ok` is already set;
otherwise opens the incoming socket, the outgoing socket and the SLP handle in
order, closing everything already acquired on the first failure, and sets
`m_init_ok` only when all three succeed. -/
def bridgeInit (env : InitEnv) (st : BridgeState) : Bool × BridgeState :=
  if st.initOk then (true, st)
  else if !env.incomingInitOk then (false, st)
  else
    let st1 := { st with incomingOpen := true }
    if !env.outgoingInitOk then (false, { st1 with incomingOpen := false })
    else
      let st2 := { st1 with outgoingOpen := true }
      if env.slpOpenErr ≠ SLP_OK then
        (false, { st2 with incomingOpen := false, outgoingOpen := false })
      else
        (true, { st2 with slpOpen := true, initOk := true })

/-! ## Helper lemmas -/

lemma qstep_inv (s : QState) (e : QEvent)
    (h : s.executed ++ s.pending = List.range s.nextId) :
    (qstep s e).executed ++ (qstep s e).pending = List.range (qstep s e).nextId := by
  cases e with
  | enq =>
    simp only [qstep, List.range_succ, ← h, List.append_assoc]
  | runStep =>
    cases hp : s.pending with
    | nil => simpa [qstep, hp] using (by simpa [hp] using h)
    | cons a t =>
      simp only [qstep, hp]
      rw [List.append_assoc]
      simpa [hp] using h

lemma runTrace_inv (es : List QEvent) :
    (runTrace es).executed ++ (runTrace es).pending = List.range (runTrace es).nextId := by
  unfold runTrace
  induction es using List.reverseRecOn with
  | nil => simp [qInit]
  | append_singleton es e ih =>
    rw [List.foldl_append, List.foldl_cons, List.foldl_nil]
    exact qstep_inv _ e ih

lemma drainLoop_eq (q done : List Nat) : drainLoop q done = ([], done ++ q) := by
  induction q generalizing done with
  | nil => simp [drainLoop]
  | cons h t ih => simp [drainLoop, ih]

lemma foldl_min_spec (l : List (String × Nat)) (a : Nat) :
    l.foldl (fun acc p => min p.2 acc) a ≤ a ∧
    (∀ p ∈ l, l.foldl (fun acc p => min p.2 acc) a ≤ p.2) ∧
    (l.foldl (fun acc p => min p.2 acc) a = a ∨
      ∃ p ∈ l, l.foldl (fun acc p => min p.2 acc) a = p.2) := by
  induction l generalizing a with
  | nil => simp
  | cons q t ih =>
    obtain ⟨ih1, ih2, ih3⟩ := ih (min q.2 a)
    simp only [List.foldl_cons]
    refine ⟨le_trans ih1 (min_le_right _ _), ?_, ?_⟩
    · intro p hp
      rcases List.mem_cons.mp hp with rfl | h
      · exact le_trans ih1 (min_le_left _ _)
      · exact ih2 p h
    · rcases ih3 with h | ⟨p, hp, h⟩
      · rcases le_total q.2 a with hle | hle
        · exact Or.inr ⟨q, List.mem_cons_self q t, by rw [h, min_eq_left hle]⟩
        · exact Or.inl (by rw [h, min_eq_right hle])
      · exact Or.inr ⟨p, List.mem_cons_of_mem _ hp, h⟩

lemma lookup_mapSet (url : String) (v : UrlState) (m : UrlMap) :
    (mapSet url v m).lookup url = some v := by
  induction m with
  | nil => simp [mapSet, List.lookup]
  | cons p t ih =>
    by_cases h : p.1 = url
    · simp [mapSet, List.lookup, h]
    · have hb : (p.1 == url) = false := beq_eq_false_iff_ne.mpr h
      have hb2 : (url == p.1) = false := beq_eq_false_iff_ne.mpr (Ne.symm h)
      simp [mapSet, List.lookup, hb, hb2, ih]

lemma lookup_mapErase (url : String) (m : UrlMap) :
    (mapErase url m).lookup url = none := by
  induction m with
  | nil => simp [mapErase, List.lookup]
  | cons p t ih =>
    by_cases h : p.1 = url
    · simpa [mapErase, List.filter, h] using ih
    · have hb : (p.1 == url) = false := beq_eq_false_iff_ne.mpr h
      have hb2 : (url == p.1) = false := beq_eq_false_iff_ne.mpr (Ne.symm h)
      simpa [mapErase, List.filter, List.lookup, hb, hb2] using ih

lemma removeTimeout_not_mem (ss : SelectServer) (t : Nat) :
    ∀ p ∈ (ss.removeTimeout t).timers, p.1 ≠ t := by
  intro p hp
  simp only [SelectServer.removeTimeout, List.mem_filter, Bool.not_eq_true',
    beq_eq_false_iff_ne] at hp
  exact hp.2

/-! ## Claim theorems -/

/-- C1: for every interleaving of enqueues and drain-loop iterations on one
guarded queue, the executed actions followed by the still-pending actions are
exactly the actions enqueued so far, in enqueue order.  Hence every enqueued
action executes at most once and in FIFO order, nothing executes before being
enqueued, and everything enqueued is executed once the queue drains empty.
Furthermore a drain loop run with no concurrent producers executes every
pending action in FIFO order and terminates with the queue empty. -/
theorem newRequest_fifo_exactly_once :
    (∀ es : List QEvent,
        (runTrace es).executed ++ (runTrace es).pending
          = List.range (runTrace es).nextId) ∧
    (∀ q done : List Nat, drainLoop q done = ([], done ++ q)) :=
  ⟨runTrace_inv, drainLoop_eq⟩

/-- C2 counterexample: the claim says the delay of the re-armed discovery
timer equals the minimum advertised lease over all returned entries.  With a
single returned entry of lease 100 and base refresh 60, the source computes
60 (the base), not the minimum lease 100. -/
theorem discovery_delay_counterexample :
    nextDiscoveryDuration 60 true [("A", 100)] = 60 ∧
    specMinLease [("A", 100)] = 100 ∧ (60 : Nat) ≠ 100 := by
  refine ⟨?_, ?_, by decide⟩ <;> rfl

/-- C2 (amended): when a discovery run succeeds, the re-armed timer delay is
the minimum of the truncated base refresh interval (the configured value
narrowed to `unsigned short`, i.e. reduced mod 2^16) and all returned leases:
it never exceeds the truncated base, is a lower bound of every returned
lease, and is attained by the truncated base or by one of the leases.  In
particular with results [(A,10),(B,30)] and base 60, `DiscoveryRequest` arms
the timer at 10 time-units (10000 ms), not 60 or 30; and with base 70000 and
no results the duration is 70000 mod 2^16 = 4464. -/
theorem discovery_delay_min_of_base_and_leases :
    (∀ (refreshTime : Nat) (urls : List (String × Nat)),
      nextDiscoveryDuration refreshTime true urls ≤ refreshTime % U16 ∧
      (∀ p ∈ urls, nextDiscoveryDuration refreshTime true urls ≤ p.2) ∧
      (nextDiscoveryDuration refreshTime true urls = refreshTime % U16 ∨
        ∃ p ∈ urls, nextDiscoveryDuration refreshTime true urls = p.2)) ∧
    discoveryRequest 60 SLP_OK ⟨SLP_OK, [("A", 10), ("B", 30)]⟩ none ⟨[], 0⟩
      = (⟨[(0, 10 * 1000)], 1⟩, 0, true, ["A", "B"]) ∧
    nextDiscoveryDuration 70000 true [] = 4464 := by
  refine ⟨fun refreshTime urls => ?_, by rfl, by rfl⟩
  simpa [nextDiscoveryDuration] using foldl_min_spec urls (refreshTime % U16)

/-- C3: the lease clamp in `RegisterRequest` grants at least the
`MIN_LIFETIME` floor for every caller input, at least the server-advertised
minimum refresh interval when that is non-zero, and grants exactly 5 for a
request of 1 with server minimum 0. -/
theorem register_lease_clamped :
    ∀ lifetime minLifetime : Nat,
      MIN_LIFETIME ≤ registerClamp lifetime minLifetime ∧
      (minLifetime = 0 ∨ minLifetime ≤ registerClamp lifetime minLifetime) ∧
      registerClamp 1 0 = 5 := by
  intro l s
  refine ⟨?_, ?_, by decide⟩ <;>
    · simp only [registerClamp, MIN_LIFETIME]
      split <;> omega

/-- C4: when `RegisterRequest` runs for a url whose stored entry already has
the same post-clamp lease, no external `SLPReg` call is issued, the url map
and the select server (hence the entry and its renewal timer) are unchanged,
and `ok = true` is still pushed onto the outgoing completion queue. -/
theorem register_same_lease_short_circuit
    (aging minLifetime : Nat) (err cbErr : Int) (url : String)
    (lifetime0 : Nat) (m : UrlMap) (ss : SelectServer) (us : UrlState)
    (hfind : m.lookup url = some us)
    (hsame : us.lifetime = registerClamp lifetime0 minLifetime) :
    registerRequest aging minLifetime err cbErr url lifetime0 m ss
      = ((m, ss), ⟨0, 0, [true]⟩) := by
  simp [registerRequest, hfind, hsame]

/-- Witness for C4 at a concrete state. -/
theorem register_same_lease_short_circuit_witness :
    List.lookup "u" [("u", (⟨120, none⟩ : UrlState))] = some ⟨120, none⟩ ∧
    (⟨120, none⟩ : UrlState).lifetime = registerClamp 120 0 ∧
    registerRequest 60 0 SLP_OK SLP_OK "u" 120 [("u", ⟨120, none⟩)] ⟨[], 0⟩
      = (([("u", ⟨120, none⟩)], ⟨[], 0⟩), ⟨0, 0, [true]⟩) :=
  ⟨by decide, by decide,
   register_same_lease_short_circuit 60 0 SLP_OK SLP_OK "u" 120 _ _
     ⟨120, none⟩ (by decide) (by decide)⟩

/-- C5: after `DeregisterRequest` runs for a url, the entry is gone from the
map, the effects are exactly one external `SLPDereg` call (performed whether
or not an entry existed) and one completion carrying the merged `ok`; when the
entry had a pending renewal timeout that handle no longer appears among the
armed timers; and a later `RegistrationTriggered` fire for the url leaves the
state unchanged and issues no registration call. -/
theorem deregister_removes_entry_and_cancels_timer
    (aging : Nat) (err cbErr err2 cb2 : Int) (url : String) (m : UrlMap)
    (ss : SelectServer) :
    (deregisterRequest err cbErr url m ss).1.1.lookup url = none ∧
    (deregisterRequest err cbErr url m ss).2 = ⟨0, 1, [mergeOk err cbErr]⟩ ∧
    (∀ l t, m.lookup url = some ⟨l, some t⟩ →
      ∀ p ∈ (deregisterRequest err cbErr url m ss).1.2.timers, p.1 ≠ t) ∧
    registrationTriggered aging err2 cb2 url
        (deregisterRequest err cbErr url m ss).1.1
        (deregisterRequest err cbErr url m ss).1.2
      = (((deregisterRequest err cbErr url m ss).1.1,
          (deregisterRequest err cbErr url m ss).1.2), ⟨0, 0, []⟩) := by
  have hnone : (deregisterRequest err cbErr url m ss).1.1.lookup url = none := by
    cases h : m.lookup url with
    | none => simp [deregisterRequest, h]
    | some us => simp [deregisterRequest, h, lookup_mapErase]
  refine ⟨hnone, ?_, ?_, ?_⟩
  · cases h : m.lookup url <;> simp [deregisterRequest, h]
  · intro l t hfind p hp
    simp only [deregisterRequest, hfind] at hp
    exact removeTimeout_not_mem ss t p hp
  · simp [registrationTriggered, hnone]

/-- Witness for C5 at a concrete state with an armed renewal timer. -/
theorem deregister_removes_entry_and_cancels_timer_witness :
    List.lookup "u" [("u", (⟨120, some 7⟩ : UrlState))] = some ⟨120, some 7⟩ ∧
    (∀ p ∈ (deregisterRequest SLP_OK SLP_OK "u" [("u", ⟨120, some 7⟩)]
        ⟨[(7, 59000)], 8⟩).1.2.timers, p.1 ≠ 7) ∧
    (deregisterRequest SLP_OK SLP_OK "u" [("u", ⟨120, some 7⟩)]
        ⟨[(7, 59000)], 8⟩).1.1.lookup "u" = none := by
  have h := deregister_removes_entry_and_cancels_timer 60 SLP_OK SLP_OK
    SLP_OK SLP_OK "u" [("u", ⟨120, some 7⟩)] ⟨[(7, 59000)], 8⟩
  exact ⟨by decide, h.2.2.1 120 7 (by decide), h.1⟩

/-- C6: every `PerformRegistration` — from `RegisterRequest` or from a
`RegistrationTriggered` renewal fire — arms exactly one renewal timer,
regardless of whether the external call succeeded, with delay
`(lifetime − aging − 1)` seconds, which is strictly before the registration
lapses; and a renewal fire stores the fresh timeout handle in the entry. -/
theorem perform_registration_schedules_renewal
    (aging minLifetime0 : Nat) (err cbErr : Int) (lifetime lifetime0 : Nat)
    (ss : SelectServer) (url : String) (m m2 : UrlMap) (us : UrlState)
    (h1 : aging + 1 ≤ lifetime) (h2 : lifetime < U16) :
    (performRegistration aging err cbErr lifetime ss).2.2.timers
      = ss.timers ++ [((performRegistration aging err cbErr lifetime ss).2.1,
          ((lifetime - aging - 1 : Nat) : Int) * 1000)] ∧
    lifetime - aging - 1 < lifetime ∧
    (m.lookup url = some us → us.lifetime = lifetime →
      (registrationTriggered aging err cbErr url m ss).1.1.lookup url
        = some ⟨lifetime, some ss.nextHandle⟩ ∧
      (registrationTriggered aging err cbErr url m ss).2.regCalls = 1) ∧
    (m2.lookup url = none → registerClamp lifetime0 minLifetime0 = lifetime →
      (registerRequest aging minLifetime0 err cbErr url lifetime0 m2 ss).1.1.lookup url
        = some ⟨lifetime, some ss.nextHandle⟩ ∧
      (registerRequest aging minLifetime0 err cbErr url lifetime0 m2 ss).1.2.timers
        = ss.timers ++ [(ss.nextHandle,
            ((lifetime - aging - 1 : Nat) : Int) * 1000)]) := by
  have hdelay : perfRegDelayMs lifetime aging
      = ((lifetime - aging - 1 : Nat) : Int) * 1000 := by
    have h2' : lifetime < 65536 := by simpa [U16] using h2
    simp only [perfRegDelayMs, U16]
    omega
  refine ⟨?_, by omega, ?_, ?_⟩
  · simp [performRegistration, SelectServer.registerSingleTimeout, hdelay]
  · intro hf hl
    subst hl
    constructor
    · simp [registrationTriggered, hf, performRegistration,
        SelectServer.registerSingleTimeout, lookup_mapSet]
    · simp [registrationTriggered, hf, performRegistration,
        SelectServer.registerSingleTimeout]
  · intro hf hcl
    constructor
    · simp [registerRequest, hf, hcl, performRegistration,
        SelectServer.registerSingleTimeout, lookup_mapSet]
    · simp [registerRequest, hf, hcl, performRegistration,
        SelectServer.registerSingleTimeout, hdelay]

/-- Witness for C6 at a concrete lease of 120 s and aging margin 60 s. -/
theorem perform_registration_schedules_renewal_witness :
    (60 + 1 ≤ 120 ∧ 120 < U16) ∧
    (performRegistration 60 SLP_OK SLP_OK 120 ⟨[], 0⟩).2.2.timers
      = [] ++ [((performRegistration 60 SLP_OK SLP_OK 120 ⟨[], 0⟩).2.1,
          ((120 - 60 - 1 : Nat) : Int) * 1000)] ∧
    (registrationTriggered 60 SLP_OK SLP_OK "u" [("u", ⟨120, none⟩)]
        ⟨[], 0⟩).1.1.lookup "u" = some ⟨120, some 0⟩ ∧
    (registerRequest 60 0 SLP_OK SLP_OK "u" 120 [] ⟨[], 0⟩).1.1.lookup "u"
      = some ⟨120, some 0⟩ := by
  have h := perform_registration_schedules_renewal 60 0 SLP_OK SLP_OK 120 120
    ⟨[], 0⟩ "u" [("u", ⟨120, none⟩)] [] ⟨120, none⟩ (by decide) (by decide)
  exact ⟨⟨by decide, by decide⟩, h.1, (h.2.2.1 (by decide) rfl).1,
    (h.2.2.2 (by decide) (by decide)).1⟩

/-- Witness for C2's amended statement at a concrete successful run. -/
theorem discovery_delay_min_witness :
    ("A", 10) ∈ [("A", 10), ("B", 30)] ∧
    nextDiscoveryDuration 60 true [("A", 10), ("B", 30)] ≤ 10 :=
  ⟨by decide,
   (discovery_delay_min_of_base_and_leases.1 60 [("A", 10), ("B", 30)]).2.1
     ("A", 10) (by decide)⟩

/-- C7 counterexample: the claim says the fallback rediscovery timer is armed
with delay equal to the configured base refresh interval.  `m_refresh_time`
is `unsigned int`, but `DiscoveryRequest` narrows it into the
`unsigned short next_discovery_duration`: with configured refresh 70000 and a
failing `SLPFindSrvs`, the program arms 70000 mod 2^16 = 4464 seconds, not
70000. -/
theorem discovery_fallback_truncation_counterexample :
    (discoveryRequest 70000 (-19) ⟨SLP_OK, []⟩ none ⟨[], 0⟩).1.timers
      = [(0, (4464 : Int) * 1000)] ∧
    (4464 : Int) * 1000 ≠ (70000 : Int) * 1000 :=
  ⟨by rfl, by decide⟩

/-- C7 (amended): when the external `SLPFindSrvs` call itself fails,
`DiscoveryRequest` still pushes `ok = false` to the caller's completion queue
and still arms a fallback one-shot rediscovery timer whose delay is the
configured base refresh interval narrowed to `unsigned short` (mod 2^16) —
equal to the configured interval whenever that is below 2^16. -/
theorem discovery_failure_reports_false_and_rearms_base
    (refreshTime : Nat) (err : Int) (cookie : SlpCookie) (tmo : Option Nat)
    (ss : SelectServer) (h : err ≠ SLP_OK) :
    (discoveryRequest refreshTime err cookie tmo ss).2.2.1 = false ∧
    (discoveryRequest refreshTime err cookie tmo ss).1.timers.getLast?
      = some ((discoveryRequest refreshTime err cookie tmo ss).2.1,
          ((refreshTime % U16 : Nat) : Int) * 1000) ∧
    (refreshTime < U16 → ((refreshTime % U16 : Nat) : Int) = (refreshTime : Nat)) := by
  have hm : mergeOk err cookie.error = false := by
    simp only [mergeOk]
    split <;> simp [h]
  refine ⟨?_, ?_, fun hlt => by simp [Nat.mod_eq_of_lt hlt]⟩
  · cases tmo <;> simp [discoveryRequest, SelectServer.registerSingleTimeout, hm]
  · cases tmo <;>
      simp [discoveryRequest, SelectServer.registerSingleTimeout,
        nextDiscoveryDuration, hm]

/-- Witness for C7 at a concrete failing return code. -/
theorem discovery_failure_witness :
    ((-19 : Int) ≠ SLP_OK) ∧
    (discoveryRequest 60 (-19) ⟨SLP_OK, []⟩ none ⟨[], 0⟩).2.2.1 = false ∧
    (discoveryRequest 60 (-19) ⟨SLP_OK, []⟩ none ⟨[], 0⟩).1.timers.getLast?
      = some ((discoveryRequest 60 (-19) ⟨SLP_OK, []⟩ none ⟨[], 0⟩).2.1,
          ((60 % U16 : Nat) : Int) * 1000) := by
  have h := discovery_failure_reports_false_and_rearms_base 60 (-19)
    ⟨SLP_OK, []⟩ none ⟨[], 0⟩ (by decide)
  exact ⟨by decide, h.1, h.2.1⟩

/-- C8: for discovery, registration and deregistration the boolean reported
to the caller is exactly the merge of the immediate return code with the
callback-delivered error, and that merge is `true` iff both channels are
`SLP_OK`. -/
theorem reported_ok_iff_both_channels_ok :
    ∀ err cbErr : Int,
      (mergeOk err cbErr = true ↔ err = SLP_OK ∧ cbErr = SLP_OK) ∧
      (∀ (refreshTime : Nat) (cookie : SlpCookie) (tmo : Option Nat)
          (ss : SelectServer),
        (discoveryRequest refreshTime err cookie tmo ss).2.2.1
          = mergeOk err cookie.error) ∧
      (∀ (aging lifetime : Nat) (ss : SelectServer),
        (performRegistration aging err cbErr lifetime ss).1
          = mergeOk err cbErr) ∧
      (∀ (url : String) (m : UrlMap) (ss : SelectServer),
        (deregisterRequest err cbErr url m ss).2.outgoing
          = [mergeOk err cbErr]) := by
  intro err cb
  refine ⟨?_, ?_, ?_, ?_⟩
  · simp only [mergeOk, SLP_OK]
    split_ifs with hcb herr <;> simp_all
  · intro refreshTime cookie tmo ss
    cases tmo <;> simp [discoveryRequest, SelectServer.registerSingleTimeout]
  · intro aging l ss
    simp [performRegistration, SelectServer.registerSingleTimeout]
  · intro url m ss
    cases h : m.lookup url <;> simp [deregisterRequest, h]

/-- Witness for C8's iff at a concrete pair of channel values. -/
theorem reported_ok_iff_witness :
    (0 : Int) = SLP_OK ∧ (0 : Int) = SLP_OK :=
  (reported_ok_iff_both_channels_ok 0 0).1.mp (by decide)

/-- C9: starting from a fresh bridge, a failed `Init` returns `false` and
leaves the bridge exactly as it found it — every resource acquired by the
earlier steps of that call is closed again and `m_init_ok` stays false;
`Init` reports `true` iff all three steps succeed; and a repeated `Init`
after success returns `true` at once without touching any resource. -/
theorem init_failure_leaves_no_partial_state :
    ∀ (env : InitEnv) (st : BridgeState),
      ((bridgeInit env freshBridge).1 = false →
        bridgeInit env freshBridge = (false, freshBridge)) ∧
      ((bridgeInit env freshBridge).1 = true ↔
        env.incomingInitOk = true ∧ env.outgoingInitOk = true ∧
          env.slpOpenErr = SLP_OK) ∧
      (st.initOk = true → bridgeInit env st = (true, st)) := by
  intro env st
  obtain ⟨i, o, e⟩ := env
  refine ⟨?_, ?_, ?_⟩
  · intro hfail
    cases i <;> cases o <;> by_cases he : e = SLP_OK <;>
      simp_all [bridgeInit, freshBridge]
  · cases i <;> cases o <;> by_cases he : e = SLP_OK <;>
      simp_all [bridgeInit, freshBridge]
  · intro h
    simp [bridgeInit, h]

/-- Witness for C9: a failure of the middle step from fresh, and a repeated
`Init` on an already-initialized bridge. -/
theorem init_failure_witness :
    bridgeInit ⟨true, false, 0⟩ freshBridge = (false, freshBridge) ∧
    bridgeInit ⟨true, true, 0⟩ ⟨true, true, true, true⟩
      = (true, ⟨true, true, true, true⟩) :=
  ⟨(init_failure_leaves_no_partial_state ⟨true, false, 0⟩ freshBridge).1
     (by decide),
   (init_failure_leaves_no_partial_state ⟨true, true, 0⟩
     ⟨true, true, true, true⟩).2.2 rfl⟩

/-- C10: the clamp on the caller's thread in the public `Register` raises any
lifetime at most `2 * SLPD_AGING_TIME_S` to exactly that value, so every
lifetime that reaches the worker-side clamps is at least twice the aging
margin, the clamped lease stays at least `aging + 1`, and the renewal-delay
subtraction in `PerformRegistration` cannot underflow: it equals the
non-negative value `(lease − aging − 1) * 1000` ms. -/
theorem public_register_clamp_prevents_underflow
    (aging minLifetime lifetime : Nat)
    (h1 : 2 * aging < U16) (h2 : lifetime < U16) (h3 : minLifetime < U16) :
    (lifetime ≤ 2 * aging → registerPublicLifetime aging lifetime = 2 * aging) ∧
    2 * aging ≤ registerPublicLifetime aging lifetime ∧
    2 * aging ≤ registerClamp (registerPublicLifetime aging lifetime) minLifetime ∧
    aging + 1 ≤ registerClamp (registerPublicLifetime aging lifetime) minLifetime ∧
    registerClamp (registerPublicLifetime aging lifetime) minLifetime < U16 ∧
    perfRegDelayMs
        (registerClamp (registerPublicLifetime aging lifetime) minLifetime) aging
      = ((registerClamp (registerPublicLifetime aging lifetime) minLifetime
          - aging - 1 : Nat) : Int) * 1000 ∧
    0 ≤ perfRegDelayMs
        (registerClamp (registerPublicLifetime aging lifetime) minLifetime)
        aging := by
  simp only [registerPublicLifetime, registerClamp, perfRegDelayMs,
    MIN_LIFETIME, U16, Nat.max_def] at *
  split_ifs <;> omega

/-- Witness for C10 at a requested lifetime of 1 with aging margin 60. -/
theorem public_register_clamp_witness :
    (1 ≤ 2 * 60 → registerPublicLifetime 60 1 = 2 * 60) ∧
    2 * 60 ≤ registerClamp (registerPublicLifetime 60 1) 0 ∧
    perfRegDelayMs (registerClamp (registerPublicLifetime 60 1) 0) 60
      = ((registerClamp (registerPublicLifetime 60 1) 0 - 60 - 1 : Nat) : Int)
          * 1000 := by
  have h := public_register_clamp_prevents_underflow 60 0 1
    (by decide) (by decide) (by decide)
  exact ⟨h.1, h.2.2.1, h.2.2.2.2.2.1⟩

end SlpThread
